import Mathlib

/-!
Shallow embedding of the k6 TypeScript load-testing demo project
(load-test, stress-test, spike-test, soak-test, volume-test scripts and
their shared `utils.ts` helper library), together with proofs checking
the natural-language specification against the code.

Conventions of the embedding:
* `Math.random()` draws are passed in explicitly as rational parameters
  (the interval [0,1) becomes a hypothesis `0 ≤ r ∧ r < 1` where needed);
  rational constants such as `7/10` stand for the source literals `0.7`.
* HTTP responses are passed in explicitly: a response carries its integer
  `status`, its raw body together with the outcome of `JSON.parse` on it
  (`none` when parsing would throw), its headers and its timing.
* JavaScript values appearing in check predicates are modelled by the
  inductive type `JsVal`; property access on a non-object yields
  `Option.none` (JavaScript `undefined`, or a caught `TypeError` — every
  predicate in the source wraps the access in try/catch returning false,
  so both collapse to falsiness).
* Scenario functions that only issue HTTP requests are embedded as pure
  functions from their random draws and the environment's responses to
  the list of requests they issue, in program order.
-/

/-- JavaScript values as they appear in parsed JSON bodies. -/
inductive JsVal where
  | null : JsVal
  | bool : Bool → JsVal
  | num : Int → JsVal
  | str : String → JsVal
  | arr : List JsVal → JsVal
  | obj : List (String × JsVal) → JsVal

namespace JsVal

/-- JavaScript truthiness of a value (`null`, `false`, `0` and `""` are
falsy; every object and array is truthy). -/
def truthy : JsVal → Bool
  | .null => false
  | .bool b => b
  | .num n => n != 0
  | .str s => s != ""
  | .arr _ => true
  | .obj _ => true

/-- Property access `v.k`: a lookup in an object, `none` (undefined) on
everything else. -/
def field : JsVal → String → Option JsVal
  | .obj kvs, k => (kvs.find? (fun kv => kv.1 == k)).map (·.2)
  | _, _ => none

/-- The JavaScript `Array.isArray`. -/
def isArray : JsVal → Bool
  | .arr _ => true
  | _ => false

end JsVal

/-- Truthiness of a possibly-undefined value: `undefined` is falsy. -/
def optTruthy : Option JsVal → Bool
  | none => false
  | some v => v.truthy

/-- Property access lifted to possibly-undefined values. In the source
every such access happens inside a try/catch that returns `false`, so an
access that would throw is identified with `undefined`. -/
def optField : Option JsVal → String → Option JsVal
  | none, _ => none
  | some v, k => v.field k

/-- An HTTP response as observed by the scripts: the k6 runtime's
`status` (0 on transport failure), the raw body string, the outcome of
`JSON.parse` on that body (`none` when parsing throws), headers, and
`timings.duration` in milliseconds. -/
structure HttpResponse where
  status : Int
  rawBody : String
  bodyParse : Option JsVal
  headers : List (String × String)
  duration : ℚ

/-- The normalized `{status, body, headers}` record every helper in
`utils.ts` returns. -/
structure ApiResponse where
  status : Int
  body : String
  headers : List (String × String)

/-- Normalization performed at the end of each helper in `utils.ts`:
`{ status: response.status, body: response.body, headers: response.headers }`. -/
def normalizeResponse (r : HttpResponse) : ApiResponse :=
  { status := r.status, body := r.rawBody, headers := r.headers }

/-! ## Soak test: time-phased behavior selection (`soak-test.ts`) -/

/-- The three behavior tags returned by `selectSoakBehavior`. -/
inductive SoakBehavior where
  | steady_browsing : SoakBehavior
  | authenticated_session : SoakBehavior
  | mixed_load : SoakBehavior
deriving Repr, DecidableEq

/-- Embedding of `selectSoakBehavior(elapsedMinutes)` from `soak-test.ts`,
with the single `Math.random()` draw made explicit. -/
def selectSoakBehavior (elapsedMinutes rand : ℚ) : SoakBehavior :=
  if elapsedMinutes < 5 then
    if rand < 7/10 then .steady_browsing else .mixed_load
  else if elapsedMinutes < 35 then
    if rand < 4/10 then .steady_browsing
    else if rand < 7/10 then .authenticated_session
    else .mixed_load
  else
    .steady_browsing

/-! ## Spike test: response classification (`spike-test.ts`) -/

/-- First check predicate of `aggressiveBrowsing`: a response was
received, `r.status > 0`. -/
def aggressiveGotResponse (r : HttpResponse) : Bool :=
  r.status > 0

/-- Second check predicate of `aggressiveBrowsing`: success or graceful
failure, `r.status < 500`. -/
def aggressiveGraceful (r : HttpResponse) : Bool :=
  r.status < 500

/-- The k6 `check` call of `aggressiveBrowsing`: true iff every listed
predicate holds of the response. -/
def aggressiveBrowseCheck (r : HttpResponse) : Bool :=
  aggressiveGotResponse r && aggressiveGraceful r

/-- First check predicate of `heavyResourceConsumption`: got a response,
`r.status > 0`. -/
def heavyLoadGotResponse (r : HttpResponse) : Bool :=
  r.status > 0

/-- Second check predicate of `heavyResourceConsumption`: acceptable
status, `r.status === 200 || r.status === 429` (429 = rate limited,
acceptable during spike). -/
def heavyLoadAcceptableStatus (r : HttpResponse) : Bool :=
  r.status == 200 || r.status == 429

/-- The k6 `check` call of `heavyResourceConsumption` on one batch
response: true iff both predicates hold (this is the value added to
`successCount`). -/
def heavyLoadCheck (r : HttpResponse) : Bool :=
  heavyLoadGotResponse r && heavyLoadAcceptableStatus r

/-! ## Shared helpers (`utils.ts`): body-shape checks and normalization -/

/-- The JavaScript `Array.isArray` on a possibly-undefined value. -/
def optIsArray : Option JsVal → Bool
  | none => false
  | some v => v.isArray

/-- Check predicate of `registerUser` ("Response contains user data") and
of `loginUser` ("Response contains token"): parse the body and test
`body.user && body.user.token`, with any throw caught and turned into
`false`. -/
def userTokenBodyCheck (r : HttpResponse) : Bool :=
  match r.bodyParse with
  | none => false
  | some body =>
      optTruthy (body.field "user") &&
      optTruthy (optField (body.field "user") "token")

/-- Check predicate of `fetchArticles` ("Response contains articles"):
`body.articles && Array.isArray(body.articles)`, catch → false. -/
def articlesBodyCheck (r : HttpResponse) : Bool :=
  match r.bodyParse with
  | none => false
  | some body =>
      optTruthy (body.field "articles") && optIsArray (body.field "articles")

/-- Check predicate of `fetchTags` ("Response contains tags"):
`body.tags && Array.isArray(body.tags)`, catch → false. -/
def tagsBodyCheck (r : HttpResponse) : Bool :=
  match r.bodyParse with
  | none => false
  | some body =>
      optTruthy (body.field "tags") && optIsArray (body.field "tags")

/-- Check predicate of `createArticle` ("Response contains article"):
`body.article && body.article.slug`, catch → false. -/
def articleSlugCheck (r : HttpResponse) : Bool :=
  match r.bodyParse with
  | none => false
  | some body =>
      optTruthy (body.field "article") &&
      optTruthy (optField (body.field "article") "slug")

/-- Embedding of `registerUser` from `utils.ts`: records its two check
outcomes and returns the normalized `{status, body, headers}` record,
regardless of whether the checks passed. -/
def registerUser (r : HttpResponse) : (Bool × Bool) × ApiResponse :=
  ((r.status == 200, userTokenBodyCheck r), normalizeResponse r)

/-- Embedding of `fetchArticles` from `utils.ts` (checks, then the
normalized record). -/
def fetchArticles (r : HttpResponse) : (Bool × Bool) × ApiResponse :=
  ((r.status == 200, articlesBodyCheck r), normalizeResponse r)

/-- Embedding of `fetchTags` from `utils.ts` (checks, then the normalized
record). -/
def fetchTags (r : HttpResponse) : (Bool × Bool) × ApiResponse :=
  ((r.status == 200, tagsBodyCheck r), normalizeResponse r)

/-- Embedding of `createArticle` from `utils.ts` (checks, then the
normalized record). -/
def createArticle (r : HttpResponse) : (Bool × Bool) × ApiResponse :=
  ((r.status == 200, articleSlugCheck r), normalizeResponse r)

/-- Embedding of `loginUser` from `utils.ts`: the k6 `check` call computes
`loginSuccessful` (status 200 and token-shaped body); the function
returns the parsed body (`JSON.parse(response.body)`) when
`loginSuccessful && response.status === 200`, and `null` (`none`)
otherwise. The function is total: no input makes it throw. -/
def loginUser (r : HttpResponse) : Option JsVal :=
  let loginSuccessful := (r.status == 200) && userTokenBodyCheck r
  if loginSuccessful && (r.status == 200) then r.bodyParse else none

/-! ## Volume test (`volume-test.ts`): pagination scenarios and dispatch -/

/-- The fixed page-size candidate set of `largePaginationTesting`. -/
def pageSizes : List ℕ := [10, 20, 50]

/-- The fixed offset candidate set of `largePaginationTesting`. -/
def offsets : List ℕ := [0, 50, 100, 200, 500, 1000]

/-- Embedding of `largePaginationTesting`: the two `Math.random()` draws
pick `pageSizes[Math.floor(r1 * pageSizes.length)]` and
`offsets[Math.floor(r2 * offsets.length)]`; the scenario then issues one
`fetchArticles(pageSize, offset)`. The `getD` default is never used for
draws in [0,1), since the floored index is then in range. -/
def largePaginationRequest (r1 r2 : ℚ) : ℕ × ℕ :=
  (pageSizes.getD (⌊r1 * (pageSizes.length : ℚ)⌋).toNat 0,
   offsets.getD (⌊r2 * (offsets.length : ℚ)⌋).toNat 0)

/-- The loop body of `extensiveBrowsingSimulation`, recursing on the
number of pages still allowed: each iteration issues
`fetchArticles(pageSize = 20, currentOffset)`; when the check on the
response of page `page` fails (`status page ≠ 200`) the loop breaks;
otherwise `currentOffset += pageSize` and the next page is fetched.
Returns the `(limit, offset)` pairs of the issued fetches in order. -/
def extensiveBrowseLoop (status : ℕ → Int) :
    ℕ → ℕ → ℕ → List (ℕ × ℕ)
  | 0, _, _ => []
  | remaining + 1, page, currentOffset =>
      if status page == 200 then
        (20, currentOffset) ::
          extensiveBrowseLoop status remaining (page + 1) (currentOffset + 20)
      else
        [(20, currentOffset)]

/-- Embedding of `extensiveBrowsingSimulation` from `volume-test.ts`:
`browsePagesCount = Math.floor(Math.random() * 8) + 3`, then the loop
over pages starting at offset 0. `status page` is the HTTP status of the
response to the page-th fetch. -/
def extensiveBrowsingSimulation (rand : ℚ) (status : ℕ → Int) :
    List (ℕ × ℕ) :=
  extensiveBrowseLoop status ((⌊rand * 8⌋).toNat + 3) 0 0

/-- Scenario selected by one iteration of the volume test's default entry
point. -/
inductive VolumeScenario where
  | largePagination : VolumeScenario
  | extensiveBrowsing : VolumeScenario
  | authenticatedBulk : String → VolumeScenario
deriving Repr, DecidableEq

/-- Embedding of the volume test's default entry dispatcher:
`volumeScenario = Math.random()` is `r1`; under 0.4 large pagination,
under 0.7 extensive browsing, otherwise authenticated bulk operations
with `authenticatedUsers[Math.floor(Math.random() * length)]` (draw
`r2`) when the pre-provisioned user array is non-empty, and the
`largePaginationTesting()` fallback when it is empty. -/
def volumeDispatch (r1 r2 : ℚ) (authenticatedUsers : List String) :
    VolumeScenario :=
  if r1 < 4/10 then .largePagination
  else if r1 < 7/10 then .extensiveBrowsing
  else if authenticatedUsers.length > 0 then
    .authenticatedBulk
      (authenticatedUsers.getD
        (⌊r2 * (authenticatedUsers.length : ℚ)⌋).toNat "")
  else .largePagination

/-- Scenario selected by one iteration of the load test's default entry
point. -/
inductive LoadScenario where
  | browseArticles : LoadScenario
  | browseArticlesAndTags : LoadScenario
  | authenticatedUserActions : String → LoadScenario
deriving Repr, DecidableEq

/-- Embedding of the load test's default entry dispatcher:
`userBehavior = Math.random()`; under 0.6 browse, under 0.8 browse plus
tags, otherwise authenticated actions `if (data.token)` — the JavaScript
truthiness of the token string, i.e. the token is non-empty — with the
`browseArticles()` fallback otherwise. -/
def loadDispatch (r : ℚ) (token : String) : LoadScenario :=
  if r < 6/10 then .browseArticles
  else if r < 8/10 then .browseArticlesAndTags
  else if token != "" then .authenticatedUserActions token
  else .browseArticles

/-! ## Generated credentials (`generateRandomUserData` in `utils.ts`) -/

/-- Decimal rendering of a natural number as a list of characters, the
way JavaScript template interpolation renders a number: most significant
digit first, `"0"` for zero. -/
def natDecimal (n : ℕ) : List Char :=
  if n = 0 then ['0']
  else ((Nat.digits 10 n).reverse.map Nat.digitChar)

/-- A generated credential record. -/
structure UserCredential where
  username : List Char
  email : List Char
  password : List Char

/-- Embedding of `generateRandomUserData` from `utils.ts`: with
`timestamp = Date.now()` (milliseconds) and
`randomNum = Math.floor(Math.random() * 1000)`, the username is
`testuser_${timestamp}_${randomNum}`, the email appends
`@example.com`, and the password is fixed. -/
def generateRandomUserData (timestamp randomNum : ℕ) : UserCredential :=
  let stem :=
    "testuser".toList ++ '_' :: natDecimal timestamp ++
      '_' :: natDecimal randomNum
  { username := stem
    email := stem ++ "@example.com".toList
    password := "testpassword123".toList }

/-- The usernames generated over one run, the run being described by the
sequence of (timestamp, random draw) pairs its calls observe. -/
def runUsernames (calls : List (ℕ × ℕ)) : List (List Char) :=
  calls.map (fun c => (generateRandomUserData c.1 c.2).username)

/-- Reading a decimal digit character back to its value. -/
def charToDigit (c : Char) : ℕ := c.toNat - 48

/-! ## Load test request traces (`load-test.ts`) -/

/-- HTTP method of an issued request. -/
inductive Method where
  | get : Method
  | post : Method
deriving Repr, DecidableEq

/-- A request issued by a scenario function: method and path (with query
string). -/
structure Request where
  method : Method
  url : String
deriving Repr, DecidableEq

/-- URL of a `fetchArticles(limit, offset)` call (path part of
`config.baseUrl + config.endpoints.articles + query`). -/
def fetchArticlesUrl (limit offset : ℕ) : String :=
  "/api/articles?limit=" ++ toString limit ++ "&offset=" ++ toString offset

/-- Requests issued by `browseArticles` in `load-test.ts`:
`fetchArticles(10, 0)`, then with probability 0.3 (draw `r`) a second
`fetchArticles(10, 10)`. -/
def browseArticlesTrace (r : ℚ) : List Request :=
  ⟨.get, fetchArticlesUrl 10 0⟩ ::
    (if r < 3/10 then [⟨.get, fetchArticlesUrl 10 10⟩] else [])

/-- Requests issued by `authenticatedUserActions` in `load-test.ts`:
`browseArticles()`, then a GET of the profile endpoint; the 10%
content-creation branch (draw `rCreate`) only sleeps — the source
comments that no article is created in the load test to avoid data
pollution — so it contributes no request in either case. -/
def authenticatedUserActionsTrace (rBrowse rCreate : ℚ) : List Request :=
  browseArticlesTrace rBrowse ++ ⟨.get, "/api/user"⟩ ::
    (if rCreate < 1/10 then [] else [])

/-- The article-creation endpoint, `config.endpoints.createArticle`. -/
def createArticleEndpoint : String := "/api/articles"

/-! ## Aggregate majority-success checks (`stress-test.ts`, `soak-test.ts`) -/

/-- Per-response success in `authenticatedStressActions`
(`stress-test.ts`): the k6 check `r.status === 200 || r.status === 201`. -/
def stressBatchSuccess (r : HttpResponse) : Bool :=
  r.status == 200 || r.status == 201

/-- Per-response success in `mixedLoadPattern` (`soak-test.ts`): both
check predicates, `r.status === 200` and
`(r.timings.duration or 0) < 4000`. -/
def soakMixedSuccess (r : HttpResponse) : Bool :=
  (r.status == 200) && decide (r.duration < 4000)

/-- The `successCount` accumulated over a batch: the number of responses
whose per-response check passed. -/
def successCount (p : HttpResponse → Bool) (responses : List HttpResponse) : ℕ :=
  (responses.filter p).length

/-- The aggregate check of `authenticatedStressActions`:
`successCount >= responses.length * 0.7`. -/
def stressMajorityCheck (responses : List HttpResponse) : Bool :=
  decide ((successCount stressBatchSuccess responses : ℚ) ≥
    (responses.length : ℚ) * (7/10))

/-- The aggregate check of `mixedLoadPattern`:
`successCount >= requests.length * 0.8`. -/
def soakMixedBatchCheck (responses : List HttpResponse) : Bool :=
  decide ((successCount soakMixedSuccess responses : ℚ) ≥
    (responses.length : ℚ) * (8/10))

/-! ## Sanity examples -/

example : selectSoakBehavior 2 (1/2) = .steady_browsing := by
  norm_num [selectSoakBehavior]
example : selectSoakBehavior 2 (9/10) = .mixed_load := by
  norm_num [selectSoakBehavior]
example : selectSoakBehavior 20 (1/2) = .authenticated_session := by
  norm_num [selectSoakBehavior]
example : selectSoakBehavior 37 (1/2) = .steady_browsing := by
  norm_num [selectSoakBehavior]

example : aggressiveBrowseCheck ⟨429, "", none, [], 0⟩ = true := by decide
example : heavyLoadCheck ⟨503, "", none, [], 0⟩ = false := by decide
example : heavyLoadCheck ⟨0, "", none, [], 0⟩ = false := by decide

example :
    loginUser ⟨200, "{}",
      some (.obj [("user", .obj [("token", .str "t")])]), [], 0⟩ =
    some (.obj [("user", .obj [("token", .str "t")])]) := by
  rfl

example : loginUser ⟨200, "not json", none, [], 0⟩ = none := by rfl
example :
    loginUser ⟨401, "{}",
      some (.obj [("user", .obj [("token", .str "t")])]), [], 0⟩ = none := by
  rfl

example : largePaginationRequest 0 0 = (10, 0) := by
  norm_num [largePaginationRequest, pageSizes, offsets]

example :
    extensiveBrowsingSimulation 0 (fun _ => 200) =
      [(20, 0), (20, 20), (20, 40)] := by
  norm_num [extensiveBrowsingSimulation]
  rfl

example :
    extensiveBrowsingSimulation 0
      (fun page => if page = 1 then 500 else 200) = [(20, 0), (20, 20)] := by
  norm_num [extensiveBrowsingSimulation]
  rfl

example : stressMajorityCheck
    [⟨200, "", none, [], 0⟩, ⟨200, "", none, [], 0⟩, ⟨500, "", none, [], 0⟩]
    = false := by
  norm_num [stressMajorityCheck, successCount, stressBatchSuccess]

/-! ## C1: time-phased soak behavior selection -/

/-- C1: the soak test's behavior selector is a function of elapsed
minutes since the captured start time. Below 5 elapsed minutes it
returns only steady browsing (for draws under 0.7, hence 70%) or mixed
load (the remaining 30%), never an authenticated session; for elapsed
minutes in [5, 35) it returns steady browsing on [0, 0.4) (40%),
authenticated session on [0.4, 0.7) (30%) and mixed load on [0.7, 1)
(30%); from 35 elapsed minutes on it returns only steady browsing. -/
theorem selectSoakBehavior_phases (e r : ℚ) (h0 : 0 ≤ r) (h1 : r < 1) :
    (e < 5 →
      selectSoakBehavior e r ≠ .authenticated_session ∧
      (selectSoakBehavior e r = .steady_browsing ↔ r < 7/10) ∧
      (selectSoakBehavior e r = .mixed_load ↔ 7/10 ≤ r)) ∧
    (5 ≤ e → e < 35 →
      (selectSoakBehavior e r = .steady_browsing ↔ r < 4/10) ∧
      (selectSoakBehavior e r = .authenticated_session ↔
        4/10 ≤ r ∧ r < 7/10) ∧
      (selectSoakBehavior e r = .mixed_load ↔ 7/10 ≤ r)) ∧
    (35 ≤ e → selectSoakBehavior e r = .steady_browsing) := by
  unfold selectSoakBehavior
  refine ⟨fun he => ?_, fun he5 he35 => ?_, fun he => ?_⟩ <;>
    split_ifs <;> simp_all <;> linarith

/-- C1 witness: evaluating the three phases at elapsed times 2, 20 and
37 minutes with concrete draws. -/
theorem selectSoakBehavior_phases_witness :
    selectSoakBehavior 2 (1/2) = .steady_browsing ∧
    selectSoakBehavior 20 (1/2) = .authenticated_session ∧
    selectSoakBehavior 37 (1/2) = .steady_browsing := by
  refine ⟨?_, ?_, ?_⟩
  · exact ((selectSoakBehavior_phases 2 (1/2) (by norm_num)
      (by norm_num)).1 (by norm_num)).2.1.mpr (by norm_num)
  · exact (((selectSoakBehavior_phases 20 (1/2) (by norm_num)
      (by norm_num)).2.1 (by norm_num) (by norm_num)).2.1).mpr
      (by norm_num)
  · exact (selectSoakBehavior_phases 37 (1/2) (by norm_num)
      (by norm_num)).2.2 (by norm_num)

/-! ## C2: spike-scenario response classification -/

/-- C2: the spike scenarios' check predicates classify every response so
that a 429 (rate-limited) status passes, a status of 500 or more fails,
and a status of 0 (no response) fails — in both `aggressiveBrowsing`
and `heavyResourceConsumption`. -/
theorem spike_response_classification (r : HttpResponse) :
    (r.status = 429 →
      aggressiveBrowseCheck r = true ∧ heavyLoadCheck r = true) ∧
    (500 ≤ r.status →
      aggressiveBrowseCheck r = false ∧ heavyLoadCheck r = false) ∧
    (r.status = 0 →
      aggressiveBrowseCheck r = false ∧ heavyLoadCheck r = false) := by
  unfold aggressiveBrowseCheck heavyLoadCheck aggressiveGotResponse
    aggressiveGraceful heavyLoadGotResponse heavyLoadAcceptableStatus
  refine ⟨fun h => ?_, fun h => ?_, fun h => ?_⟩ <;>
    simp_all <;> omega

/-- C2 witness: the three classifications evaluated on synthetic mock
responses with statuses 429, 503 and 0. -/
theorem spike_response_classification_witness :
    (aggressiveBrowseCheck ⟨429, "", none, [], 0⟩ = true ∧
      heavyLoadCheck ⟨429, "", none, [], 0⟩ = true) ∧
    (aggressiveBrowseCheck ⟨503, "", none, [], 0⟩ = false ∧
      heavyLoadCheck ⟨503, "", none, [], 0⟩ = false) ∧
    (aggressiveBrowseCheck ⟨0, "", none, [], 0⟩ = false ∧
      heavyLoadCheck ⟨0, "", none, [], 0⟩ = false) :=
  ⟨(spike_response_classification ⟨429, "", none, [], 0⟩).1 rfl,
   (spike_response_classification ⟨503, "", none, [], 0⟩).2.1 (by norm_num),
   (spike_response_classification ⟨0, "", none, [], 0⟩).2.2 rfl⟩

/-! ## C3: `loginUser` returns the parsed body exactly on success -/

/-- C3: `loginUser` returns the parsed `{user: ...}` object exactly when
the response status is 200 and the body parses as JSON whose `user`
field and `user.token` field are truthy; on any failure (non-200
status, unparseable body, or missing/falsy token) it returns `null`.
The embedding is a total function, so no input makes it throw. -/
theorem loginUser_spec (r : HttpResponse) :
    (∀ j : JsVal, loginUser r = some j ↔
      (r.status = 200 ∧ r.bodyParse = some j ∧
        optTruthy (j.field "user") = true ∧
        optTruthy (optField (j.field "user") "token") = true)) ∧
    ((r.status ≠ 200 ∨ userTokenBodyCheck r = false) →
      loginUser r = none) := by
  constructor
  · intro j
    simp only [loginUser, userTokenBodyCheck]
    constructor
    · intro h
      split_ifs at h with hc
      · simp only [Bool.and_eq_true, beq_iff_eq] at hc
        obtain ⟨⟨hs, hm⟩, -⟩ := hc
        cases hb : r.bodyParse with
        | none => rw [hb] at hm; simp at hm
        | some body =>
            rw [hb] at h hm
            obtain rfl : body = j := by injection h
            simp only [Bool.and_eq_true] at hm
            exact ⟨hs, rfl, hm.1, hm.2⟩
    · rintro ⟨hs, hb, hu, ht⟩
      simp [hs, hb, hu, ht]
  · intro h
    unfold loginUser
    rcases h with h | h
    · simp [h]
    · simp [h]

/-- C3 witness: a 200 response whose body parses with a truthy
`user.token` yields the parsed object; a non-200 response yields null. -/
theorem loginUser_spec_witness :
    loginUser ⟨200, "{}",
        some (.obj [("user", .obj [("token", .str "tok")])]), [], 0⟩ =
      some (.obj [("user", .obj [("token", .str "tok")])]) ∧
    loginUser ⟨401, "{}",
        some (.obj [("user", .obj [("token", .str "tok")])]), [], 0⟩ =
      none :=
  ⟨((loginUser_spec ⟨200, "{}",
      some (.obj [("user", .obj [("token", .str "tok")])]), [], 0⟩).1
      (.obj [("user", .obj [("token", .str "tok")])])).mpr
      ⟨rfl, rfl, rfl, rfl⟩,
   (loginUser_spec ⟨401, "{}",
      some (.obj [("user", .obj [("token", .str "tok")])]), [], 0⟩).2
      (Or.inl (by norm_num))⟩

/-! ## C4: bounded extensive-browse scan -/

/-- Invariant of the extensive-browse loop, by induction on the number of
remaining pages: at most `n` fetches happen, the recorded fetches are
exactly `(20, off + 20 * i)` for `i` below the number of fetches, and
the (j+1)-th fetch only happens when page `j` got status 200. -/
theorem extensiveBrowseLoop_invariant (status : ℕ → Int) (n : ℕ) :
    ∀ (page off : ℕ),
      (extensiveBrowseLoop status n page off).length ≤ n ∧
      extensiveBrowseLoop status n page off =
        (List.range (extensiveBrowseLoop status n page off).length).map
          (fun i => (20, off + 20 * i)) ∧
      (∀ j, j + 1 < (extensiveBrowseLoop status n page off).length →
        status (page + j) = 200) := by
  induction n with
  | zero =>
      intro page off
      simp [extensiveBrowseLoop]
  | succ n ih =>
      intro page off
      simp only [extensiveBrowseLoop]
      split_ifs with hs
      · have hpage : status page = 200 := by simpa using hs
        obtain ⟨ihlen, iheq, ihpre⟩ := ih (page + 1) (off + 20)
        refine ⟨by simpa using Nat.succ_le_succ ihlen, ?_, ?_⟩
        · simp only [List.length_cons, List.range_succ_eq_map, List.map_cons,
            List.map_map]
          congr 1
          conv_lhs => rw [iheq]
          apply List.map_congr_left
          intro i hi
          simp only [Function.comp_apply, Prod.mk.injEq, true_and]
          omega
        · intro j hj
          match j with
          | 0 => simpa using hpage
          | m + 1 =>
              have hm : m + 1 <
                  (extensiveBrowseLoop status n (page + 1) (off + 20)).length := by
                simpa using hj
              have := ihpre m hm
              have harg : page + 1 + m = page + (m + 1) := by omega
              rw [harg] at this
              exact this
      · refine ⟨by simp, by norm_num [List.range_succ], ?_⟩
        intro j hj
        simp at hj

/-- C4: a run of the volume test's extensive-browse scenario with draw
`rand` in [0,1) picks a page count between 3 and 10, issues at most that
many fetches, every fetch uses page size 20 with the i-th fetch at
offset `20 * i` (offsets strictly increasing from 0 in steps of 20), and
the (j+1)-th fetch only happens when page `j` got status 200 — so
nothing is fetched past the first non-200 response. -/
theorem extensiveBrowsing_spec (rand : ℚ) (status : ℕ → Int)
    (h0 : 0 ≤ rand) (h1 : rand < 1) :
    3 ≤ (⌊rand * 8⌋).toNat + 3 ∧
    (⌊rand * 8⌋).toNat + 3 ≤ 10 ∧
    (extensiveBrowsingSimulation rand status).length ≤
      (⌊rand * 8⌋).toNat + 3 ∧
    extensiveBrowsingSimulation rand status =
      (List.range (extensiveBrowsingSimulation rand status).length).map
        (fun i => (20, 20 * i)) ∧
    (∀ j, j + 1 < (extensiveBrowsingSimulation rand status).length →
      status j = 200) := by
  have hfloor : ⌊rand * 8⌋ < 8 := Int.floor_lt.mpr (by
    push_cast
    linarith)
  have hcount : (⌊rand * 8⌋).toNat + 3 ≤ 10 := by omega
  obtain ⟨hlen, heq, hpre⟩ :=
    extensiveBrowseLoop_invariant status ((⌊rand * 8⌋).toNat + 3) 0 0
  refine ⟨by omega, hcount, hlen, by simpa using heq, ?_⟩
  intro j hj
  simpa using hpre j hj

/-- C4 witness: with draw 0 (page count 3) and an all-200 environment,
the scenario issues at most 3 fetches and its first fetch is
`(20, 0)`. -/
theorem extensiveBrowsing_spec_witness :
    3 ≤ (⌊(0:ℚ) * 8⌋).toNat + 3 ∧
    (⌊(0:ℚ) * 8⌋).toNat + 3 ≤ 10 ∧
    (extensiveBrowsingSimulation 0 (fun _ => 200)).length ≤
      (⌊(0:ℚ) * 8⌋).toNat + 3 :=
  have h := extensiveBrowsing_spec 0 (fun _ => 200) (by norm_num) (by norm_num)
  ⟨h.1, h.2.1, h.2.2.1⟩

/-! ## C5: pagination sweep uses only the fixed candidate sets -/

/-- C5: every fetch issued by the volume test's pagination sweep draws
its limit from the fixed set {10, 20, 50} and its offset from the fixed
set {0, 50, 100, 200, 500, 1000}; both components are natural numbers,
so no request ever carries a negative or non-integer offset. -/
theorem largePagination_fixed_sets (r1 r2 : ℚ)
    (h10 : 0 ≤ r1) (h11 : r1 < 1) (h20 : 0 ≤ r2) (h21 : r2 < 1) :
    (largePaginationRequest r1 r2).1 ∈ pageSizes ∧
    (largePaginationRequest r1 r2).2 ∈ offsets := by
  have hi1 : ⌊r1 * (pageSizes.length : ℚ)⌋ < 3 := by
    apply Int.floor_lt.mpr
    show r1 * ((3:ℕ) : ℚ) < ((3:ℤ) : ℚ)
    push_cast
    linarith
  have hi2 : ⌊r2 * (offsets.length : ℚ)⌋ < 6 := by
    apply Int.floor_lt.mpr
    show r2 * ((6:ℕ) : ℚ) < ((6:ℤ) : ℚ)
    push_cast
    linarith
  have hn1 : (⌊r1 * (pageSizes.length : ℚ)⌋).toNat < 3 := by omega
  have hn2 : (⌊r2 * (offsets.length : ℚ)⌋).toNat < 6 := by omega
  unfold largePaginationRequest
  constructor
  · set a := (⌊r1 * (pageSizes.length : ℚ)⌋).toNat with ha
    interval_cases a <;> simp [pageSizes]
  · set b := (⌊r2 * (offsets.length : ℚ)⌋).toNat with hb
    interval_cases b <;> simp [offsets]

/-- C5 witness: the draws (0, 1/2) select limit 10 and offset 200, both
members of the fixed candidate sets. -/
theorem largePagination_fixed_sets_witness :
    (largePaginationRequest 0 (1/2)).1 ∈ pageSizes ∧
    (largePaginationRequest 0 (1/2)).2 ∈ offsets :=
  largePagination_fixed_sets 0 (1/2) (by norm_num) (by norm_num)
    (by norm_num) (by norm_num)

/-! ## C6: uniqueness of generated usernames -/

theorem charToDigit_digitChar (d : ℕ) (h : d < 10) :
    charToDigit (Nat.digitChar d) = d := by
  interval_cases d <;> decide

theorem digitChar_ne_underscore (d : ℕ) (h : d < 10) :
    Nat.digitChar d ≠ '_' := by
  interval_cases d <;> decide

/-- Decimal renderings never contain the separator character. -/
theorem underscore_not_mem_natDecimal (n : ℕ) : '_' ∉ natDecimal n := by
  unfold natDecimal
  split_ifs with h
  · decide
  · intro hmem
    simp only [List.mem_map, List.mem_reverse] at hmem
    obtain ⟨d, hd, hdc⟩ := hmem
    exact digitChar_ne_underscore d
      (Nat.digits_lt_base (by norm_num) hd) hdc

/-- Reading the decimal rendering back recovers the number. -/
theorem natDecimal_leftInverse (n : ℕ) :
    Nat.ofDigits 10 (((natDecimal n).map charToDigit).reverse) = n := by
  unfold natDecimal
  split_ifs with h
  · subst h
    simp [Nat.ofDigits, charToDigit]
  · rw [List.map_map]
    have hmap : (Nat.digits 10 n).reverse.map (charToDigit ∘ Nat.digitChar) =
        (Nat.digits 10 n).reverse := by
      have := List.map_congr_left (l := (Nat.digits 10 n).reverse)
        (f := charToDigit ∘ Nat.digitChar) (g := id) ?_
      · simpa using this
      · intro d hd
        simp only [Function.comp_apply, id_eq]
        exact charToDigit_digitChar d
          (Nat.digits_lt_base (by norm_num) (List.mem_reverse.mp hd))
    rw [hmap, List.reverse_reverse]
    exact Nat.ofDigits_digits 10 n

theorem natDecimal_injective : Function.Injective natDecimal := by
  intro m n h
  have hm := natDecimal_leftInverse m
  rw [h] at hm
  exact hm.symm.trans (natDecimal_leftInverse n)

/-- Splitting at a separator absent from the left parts is unambiguous. -/
theorem append_sep_inj :
    ∀ {l1 l3 : List Char} {l2 l4 : List Char}, '_' ∉ l1 → '_' ∉ l3 →
      l1 ++ '_' :: l2 = l3 ++ '_' :: l4 → l1 = l3 ∧ l2 = l4 := by
  intro l1
  induction l1 with
  | nil =>
      intro l3 l2 l4 h1 h3 h
      match l3 with
      | [] =>
          refine ⟨rfl, ?_⟩
          simpa using h
      | c :: l3t =>
          exfalso
          simp only [List.nil_append, List.cons_append] at h
          injection h with hc htail
          exact h3 (by rw [← hc]; exact List.mem_cons_self _ _)
  | cons a l1t ih =>
      intro l3 l2 l4 h1 h3 h
      match l3 with
      | [] =>
          exfalso
          simp only [List.nil_append, List.cons_append] at h
          injection h with ha htail
          exact h1 (by rw [ha]; exact List.mem_cons_self _ _)
      | c :: l3t =>
          simp only [List.cons_append] at h
          injection h with hhead htail
          have h1t : '_' ∉ l1t := fun hm => h1 (List.mem_cons_of_mem a hm)
          have h3t : '_' ∉ l3t := fun hm => h3 (List.mem_cons_of_mem c hm)
          obtain ⟨he, ht⟩ := ih h1t h3t htail
          exact ⟨by rw [hhead, he], ht⟩

/-- C6 counterexample: two distinct calls to `generateRandomUserData`
made within the same millisecond (`Date.now()` returns the same
timestamp) whose `Math.floor(Math.random() * 1000)` draw coincides
produce identical usernames, so a run's generated usernames are not
pairwise distinct: nothing in the code prevents this collision. -/
theorem generateRandomUserData_collision :
    ¬ (runUsernames
        [(1700000000000, 999), (1700000000000, 999)]).Nodup := by
  simp [runUsernames]

/-- C6 amended: generated usernames (and emails) differ whenever the two
calls observe different (timestamp, random draw) pairs: the rendering
`testuser_${timestamp}_${randomNum}` is injective in the pair. Two calls
within the same millisecond that draw the same suffix collide, so
uniqueness within a run is only practical, not guaranteed. -/
theorem generateRandomUserData_inj (t n u m : ℕ)
    (h : (t, n) ≠ (u, m)) :
    (generateRandomUserData t n).username ≠
      (generateRandomUserData u m).username ∧
    (generateRandomUserData t n).email ≠
      (generateRandomUserData u m).email := by
  have hstem : "testuser".toList ++ '_' :: natDecimal t ++ '_' :: natDecimal n ≠
      "testuser".toList ++ '_' :: natDecimal u ++ '_' :: natDecimal m := by
    intro he
    rw [List.append_assoc, List.append_assoc] at he
    have he2 := List.append_cancel_left he
    simp only [List.cons_append] at he2
    injection he2 with _ he3
    obtain ⟨hdt, hdn⟩ := append_sep_inj
      (underscore_not_mem_natDecimal t) (underscore_not_mem_natDecimal u) he3
    exact h (by rw [natDecimal_injective hdt, natDecimal_injective hdn])
  constructor
  · simpa [generateRandomUserData] using hstem
  · intro he
    apply hstem
    simp only [generateRandomUserData] at he
    exact List.append_cancel_right he

/-- C6 amended witness: calls with draws 1 and 2 in the same millisecond
0 give different usernames and emails. -/
theorem generateRandomUserData_inj_witness :
    (generateRandomUserData 0 1).username ≠
      (generateRandomUserData 0 2).username ∧
    (generateRandomUserData 0 1).email ≠
      (generateRandomUserData 0 2).email :=
  generateRandomUserData_inj 0 1 0 2 (by decide)

/-! ## C7: body-shape checks fail closed, helpers always normalize -/

/-- C7: for every response body that does not parse as JSON, the
body-shape check predicates of `registerUser`, `fetchArticles`,
`fetchTags` and `createArticle` evaluate to false (the JSON parse
failure is caught inside the predicate) rather than throwing, and each
helper returns the normalized `{status, body, headers}` record of its
response regardless of whether its checks passed. -/
theorem bodyChecks_fail_closed (r : HttpResponse) :
    (r.bodyParse = none →
      userTokenBodyCheck r = false ∧ articlesBodyCheck r = false ∧
      tagsBodyCheck r = false ∧ articleSlugCheck r = false) ∧
    (registerUser r).2 =
      { status := r.status, body := r.rawBody, headers := r.headers } ∧
    (fetchArticles r).2 =
      { status := r.status, body := r.rawBody, headers := r.headers } ∧
    (fetchTags r).2 =
      { status := r.status, body := r.rawBody, headers := r.headers } ∧
    (createArticle r).2 =
      { status := r.status, body := r.rawBody, headers := r.headers } := by
  refine ⟨fun h => ?_, rfl, rfl, rfl, rfl⟩
  simp [userTokenBodyCheck, articlesBodyCheck, tagsBodyCheck,
    articleSlugCheck, h]

/-- C7 witness: a status-200 response with the unparseable body
"not json" fails all four body-shape checks, and `fetchArticles` still
returns its normalized record. -/
theorem bodyChecks_fail_closed_witness :
    userTokenBodyCheck ⟨200, "not json", none, [], 0⟩ = false ∧
    articlesBodyCheck ⟨200, "not json", none, [], 0⟩ = false ∧
    tagsBodyCheck ⟨200, "not json", none, [], 0⟩ = false ∧
    articleSlugCheck ⟨200, "not json", none, [], 0⟩ = false ∧
    (fetchArticles ⟨200, "not json", none, [], 0⟩).2 =
      { status := 200, body := "not json", headers := [] } :=
  have h := bodyChecks_fail_closed ⟨200, "not json", none, [], 0⟩
  ⟨(h.1 rfl).1, (h.1 rfl).2.1, (h.1 rfl).2.2.1, (h.1 rfl).2.2.2, h.2.2.1⟩

/-! ## C8: the steady load scenario creates no data -/

/-- C8: for every pair of random draws — including draws that take the
10% content-creation branch, which only pauses — every request issued by
the load test's `authenticatedUserActions` is a GET; in particular no
POST to the article-creation endpoint ever occurs, so the steady load
scenario creates no data. -/
theorem authenticatedUserActions_no_create (rBrowse rCreate : ℚ) :
    ∀ req ∈ authenticatedUserActionsTrace rBrowse rCreate,
      req.method = .get ∧
      ¬(req.method = .post ∧ req.url = createArticleEndpoint) := by
  intro req hreq
  unfold authenticatedUserActionsTrace browseArticlesTrace at hreq
  split_ifs at hreq <;> fin_cases hreq <;> exact ⟨rfl, by simp⟩

/-- C8 witness: with both draws 0 (the content-creation branch taken),
the first issued request is a GET far from article creation. -/
theorem authenticatedUserActions_no_create_witness :
    (Request.mk .get (fetchArticlesUrl 10 0)).method = Method.get ∧
    ¬((Request.mk .get (fetchArticlesUrl 10 0)).method = Method.post ∧
      (Request.mk .get (fetchArticlesUrl 10 0)).url = createArticleEndpoint) :=
  authenticatedUserActions_no_create 0 0 ⟨.get, fetchArticlesUrl 10 0⟩
    (by simp [authenticatedUserActionsTrace, browseArticlesTrace])

/-! ## C9: graceful fallback when authentication is unavailable -/

/-- C9: when the authenticated branch of a dispatcher is selected but no
authentication is available — an empty pre-provisioned user array in the
volume test, an empty token in the load test — the iteration falls back
to an unauthenticated browsing scenario: the authenticated branch, the
only place the user array is indexed or the token attached, is never
chosen, and the dispatcher (a total function) still yields a scenario,
so the iteration completes without error. -/
theorem emptyAuth_fallback (r1 r2 r : ℚ) :
    (∀ t, volumeDispatch r1 r2 [] ≠ .authenticatedBulk t) ∧
    (7/10 ≤ r1 → volumeDispatch r1 r2 [] = .largePagination) ∧
    (∀ t, loadDispatch r "" ≠ .authenticatedUserActions t) ∧
    (8/10 ≤ r → loadDispatch r "" = .browseArticles) := by
  refine ⟨?_, ?_, ?_, ?_⟩
  · intro t
    unfold volumeDispatch
    split_ifs <;> simp_all
  · intro h
    unfold volumeDispatch
    split_ifs <;> first | rfl | linarith | simp_all
  · intro t
    unfold loadDispatch
    split_ifs <;> simp_all
  · intro h
    unfold loadDispatch
    split_ifs <;> first | rfl | linarith | simp_all

/-- C9 witness: draws of 9/10 select the authenticated branch in both
dispatchers; with no credentials both fall back to browsing. -/
theorem emptyAuth_fallback_witness :
    volumeDispatch (9/10) 0 [] = .largePagination ∧
    loadDispatch (9/10) "" = .browseArticles :=
  ⟨(emptyAuth_fallback (9/10) 0 (9/10)).2.1 (by norm_num),
   (emptyAuth_fallback (9/10) 0 (9/10)).2.2.2 (by norm_num)⟩

/-! ## C10: the majority-success checks require full success -/

/-- All responses of a batch pass their per-response check iff the
success count reaches the batch size. -/
theorem successCount_eq_length_iff (p : HttpResponse → Bool)
    (l : List HttpResponse) :
    successCount p l = l.length ↔ ∀ a ∈ l, p a = true := by
  unfold successCount
  constructor
  · intro h
    have heq := List.Sublist.eq_of_length (List.filter_sublist l) h
    exact fun a ha => List.filter_eq_self.mp heq a ha
  · intro h
    rw [List.filter_eq_self.mpr h]

/-- C10: over the stress test's authenticated batch of 3 requests, the
check `successCount >= responses.length * 0.7` demands at least 2.1,
hence all 3 successes; over the soak test's mixed-load batch of 2
requests, `successCount >= requests.length * 0.8` demands at least 1.6,
hence both — each aggregate check is true iff no request in the batch
failed its per-response check. -/
theorem majority_checks_require_all (responses : List HttpResponse) :
    (responses.length = 3 →
      (stressMajorityCheck responses = true ↔
        ∀ r ∈ responses, stressBatchSuccess r = true)) ∧
    (responses.length = 2 →
      (soakMixedBatchCheck responses = true ↔
        ∀ r ∈ responses, soakMixedSuccess r = true)) := by
  constructor
  · intro hlen
    have hle : successCount stressBatchSuccess responses ≤ 3 :=
      hlen ▸ List.length_filter_le _ _
    have hiff : stressMajorityCheck responses = true ↔
        ((successCount stressBatchSuccess responses : ℚ) ≥
          (responses.length : ℚ) * (7/10)) := by
      simp [stressMajorityCheck]
    rw [hiff, ← successCount_eq_length_iff, hlen]
    push_cast
    constructor
    · intro hq
      by_contra hne
      have h2 : successCount stressBatchSuccess responses ≤ 2 := by omega
      have h2q : ((successCount stressBatchSuccess responses : ℚ)) ≤ 2 := by
        exact_mod_cast h2
      linarith
    · intro hc
      rw [hc]
      norm_num
  · intro hlen
    have hle : successCount soakMixedSuccess responses ≤ 2 :=
      hlen ▸ List.length_filter_le _ _
    have hiff : soakMixedBatchCheck responses = true ↔
        ((successCount soakMixedSuccess responses : ℚ) ≥
          (responses.length : ℚ) * (8/10)) := by
      simp [soakMixedBatchCheck]
    rw [hiff, ← successCount_eq_length_iff, hlen]
    push_cast
    constructor
    · intro hq
      by_contra hne
      have h1 : successCount soakMixedSuccess responses ≤ 1 := by omega
      have h1q : ((successCount soakMixedSuccess responses : ℚ)) ≤ 1 := by
        exact_mod_cast h1
      linarith
    · intro hc
      rw [hc]
      norm_num

/-- C10 witness: a stress batch of three responses with one 500 fails the
majority check; a soak batch of two fast 200s passes it. -/
theorem majority_checks_require_all_witness :
    stressMajorityCheck [⟨200, "", none, [], 0⟩, ⟨201, "", none, [], 0⟩,
      ⟨500, "", none, [], 0⟩] = false ∧
    soakMixedBatchCheck [⟨200, "", none, [], 0⟩, ⟨200, "", none, [], 0⟩]
      = true := by
  constructor
  · have h := (majority_checks_require_all [⟨200, "", none, [], 0⟩,
      ⟨201, "", none, [], 0⟩, ⟨500, "", none, [], 0⟩]).1 rfl
    rw [Bool.eq_false_iff]
    intro hc
    have := h.mp hc ⟨500, "", none, [], 0⟩ (by simp)
    simp [stressBatchSuccess] at this
  · exact ((majority_checks_require_all [⟨200, "", none, [], 0⟩,
      ⟨200, "", none, [], 0⟩]).2 rfl).mpr (by
        intro r hr
        fin_cases hr <;> rfl)
